import Mathlib

/-!
Verification of the rider assignment and routing engine of the Route-Sasa
delivery system (`orders/assignment_service.py`, `orders/views.py`,
`orders/models.py`, `riders/models.py`).

Modelling conventions:
* Database tables are Lean lists kept in insertion order; Django `order_by`
  is modelled as a stable sort (`List.insertionSort`) over the stored order.
* Dates are day numbers (`Nat`), times of day are minute counts (`Nat`);
  wall-clock timestamp fields (`created_at`, `delivered_at`, ...) are omitted,
  as are fields the verified logic never reads or writes (phone numbers,
  vehicle data, GPS coordinates, user foreign keys).
* `DecimalField` ratings and the derived success rate are rationals (`ℚ`),
  Python float arithmetic on these small decimal values being exact.
* SMS sending (`sms_service.*`) only appends `SMSLog` rows and talks to the
  gateway; no verified property mentions those rows, so it is omitted.
-/

namespace RouteSasa

/-- Order status choices (`orders/models.py`, `Order.ORDER_STATUS`). -/
inductive OrderStatus
  | pending_confirmation
  | confirmed
  | reschedule_requested
  | assigned
  | in_transit
  | delivered
  | failed
  | cancelled
deriving DecidableEq

/-- Rider status choices (`riders/models.py`, `Rider.STATUS_CHOICES`). -/
inductive RiderStatus
  | available
  | on_delivery
  | offline
deriving DecidableEq

/-- Rider rows (`riders/models.py`). `preferred_landmarks` holds landmark
ids; `rating` is the stored `DecimalField` value. -/
structure Rider where
  id : Nat
  preferred_landmarks : List Nat
  status : RiderStatus
  total_deliveries : Int
  successful_deliveries : Int
  failed_deliveries : Int
  rating : ℚ
deriving DecidableEq

/-- `Rider.success_rate` property: `(successful_deliveries / total_deliveries) * 100`,
and `0` when no delivery has been recorded. -/
def Rider.success_rate (r : Rider) : ℚ :=
  if r.total_deliveries = 0 then 0
  else (r.successful_deliveries : ℚ) / (r.total_deliveries : ℚ) * 100

/-- Order rows (`orders/models.py`). `landmark` is the landmark id: the
assignment flow dereferences it unconditionally, so it is modelled non-null. -/
structure Order where
  id : Nat
  landmark : Nat
  delivery_date : Nat
  delivery_time_start : Nat
  delivery_time_end : Nat
  status : OrderStatus
  assigned_rider : Option Nat
  delivery_proof : String
  failure_reason : String
deriving DecidableEq

/-- Delivery route rows (`orders/models.py`, `DeliveryRoute`); `orders` holds
the ids of the member orders of the many-to-many relation. -/
structure DeliveryRoute where
  id : Nat
  rider : Nat
  route_date : Nat
  landmark : Nat
  sequence : Int
  estimated_arrival : Nat
  completed : Bool
  orders : List Nat
deriving DecidableEq

/-- The database state: the three tables the engine touches, plus the
auto-increment counter supplying fresh route primary keys. -/
structure DB where
  riders : List Rider
  orders : List Order
  routes : List DeliveryRoute
  nextRouteId : Nat
deriving DecidableEq

/-- `Order.objects.filter(assigned_rider=rider, status__in=['ASSIGNED',
'IN_TRANSIT'], delivery_date=...).count()` from `_find_best_rider`. -/
def current_assignments (db : DB) (rider_id : Nat) (delivery_date : Nat) : Nat :=
  (db.orders.filter fun o =>
    o.assigned_rider == some rider_id &&
    (o.status == OrderStatus.assigned || o.status == OrderStatus.in_transit) &&
    o.delivery_date == delivery_date).length

/-- Workload bucket of `_find_best_rider`: `0 → 25`, `<= 2 → 15`,
`<= 5 → 5`, otherwise `0`. -/
def workload_score (current : Nat) : ℚ :=
  if current = 0 then 25
  else if current ≤ 2 then 15
  else if current ≤ 5 then 5
  else 0

/-- `rating_score = (float(rider.rating) / 5.0) * 25` from `_find_best_rider`
(the stored rating is used as-is, with no clamping). -/
def rating_score (r : Rider) : ℚ := r.rating / 5 * 25

/-- `success_score = (rider.success_rate / 100.0) * 20` from `_find_best_rider`. -/
def success_score (r : Rider) : ℚ := r.success_rate / 100 * 20

/-- `+30` when the cohort's landmark is among the rider's preferred landmarks
(`if landmark in rider.preferred_landmarks.all()`). -/
def familiarity_score (r : Rider) (landmark : Nat) : ℚ :=
  if landmark ∈ r.preferred_landmarks then 30 else 0

/-- Total suitability score of one rider for a cohort at `landmark` on
`delivery_date`, summed in the order the code accumulates it. -/
def rider_score (db : DB) (landmark : Nat) (delivery_date : Nat) (r : Rider) : ℚ :=
  familiarity_score r landmark
    + workload_score (current_assignments db r.id delivery_date)
    + rating_score r
    + success_score r

/-- Descending-score order on scored riders: `a` precedes `b` when `a`'s
score is at least `b`'s. Sorting stably with this relation models Python's
`scored_riders.sort(key=lambda x: x[1], reverse=True)` (Python sort is
stable and `reverse=True` does not reorder equal keys). -/
def score_desc (a b : Rider × ℚ) : Prop := b.2 ≤ a.2

instance : DecidableRel score_desc := fun a b => inferInstanceAs (Decidable (b.2 ≤ a.2))

/-- `_find_best_rider`: score every rider in iteration order, stable-sort by
score descending, and return `scored_riders[0][0]`, or `None` for an empty
rider list. The Python code raises `IndexError` on `orders[0]` for an empty
order list; that case is modelled as `none` (it is unreachable: cohorts
produced by grouping are non-empty). -/
def find_best_rider (db : DB) (riders : List Rider) (landmark : Nat)
    (orders : List Order) : Option Rider :=
  match orders with
  | [] => none
  | o0 :: _ =>
    let scored := riders.map fun r => (r, rider_score db landmark o0.delivery_date r)
    (scored.insertionSort score_desc).head?.map Prod.fst

/-- `order_by('-rating', '-successful_deliveries')`: higher rating first,
ties broken by more successful deliveries first. -/
def rider_pool_order (a b : Rider) : Prop :=
  b.rating < a.rating ∨ (a.rating = b.rating ∧ b.successful_deliveries ≤ a.successful_deliveries)

instance : DecidableRel rider_pool_order := fun a b =>
  inferInstanceAs (Decidable (b.rating < a.rating ∨ (a.rating = b.rating ∧ b.successful_deliveries ≤ a.successful_deliveries)))

/-- `Rider.objects.filter(status='AVAILABLE').order_by('-rating',
'-successful_deliveries')` from `_assign_group_to_rider`. -/
def available_riders (db : DB) : List Rider :=
  (db.riders.filter fun r => r.status == RiderStatus.available).insertionSort rider_pool_order

/-- Maximal element of a list of sequence numbers. This embeds
`existing_routes.order_by('-sequence').first()`, whose only use in
`_create_delivery_route` is reading the maximal `sequence`
(`none` when no route exists for the rider and date). -/
def max_sequence : List Int → Option Int
  | [] => none
  | x :: xs =>
    match max_sequence xs with
    | none => some x
    | some m => some (max x m)

/-- `min([o.delivery_time_start for o in orders])`. Python `min` raises on an
empty list; modelled as `0` there (unreachable: cohorts are non-empty). -/
def min_time_start (orders : List Order) : Nat :=
  match (orders.map Order.delivery_time_start).min? with
  | none => 0
  | some m => m

/-- `DeliveryRoute.objects.filter(rider=..., route_date=...)`: the stored
routes of one rider for one date. -/
def routes_for (db : DB) (rider_id : Nat) (route_date : Nat) : List DeliveryRoute :=
  db.routes.filter fun rt => rt.rider == rider_id && rt.route_date == route_date

/-- `_create_delivery_route`: next sequence is `1 + max(existing sequence for
this rider+date)` or `1` when none exist; the new route row (fresh primary
key) is appended with the cohort's orders attached. -/
def create_delivery_route (db : DB) (rider : Rider) (landmark : Nat)
    (delivery_date : Nat) (orders : List Order) : DB × DeliveryRoute :=
  let existing := routes_for db rider.id delivery_date
  let seq : Int :=
    match max_sequence (existing.map DeliveryRoute.sequence) with
    | none => 1
    | some m => m + 1
  let route : DeliveryRoute :=
    { id := db.nextRouteId
      rider := rider.id
      route_date := delivery_date
      landmark := landmark
      sequence := seq
      estimated_arrival := min_time_start orders
      completed := false
      orders := orders.map Order.id }
  ({ db with routes := db.routes ++ [route], nextRouteId := db.nextRouteId + 1 }, route)

/-- Per-cohort outcome dictionary built by `_assign_group_to_rider`
(`landmark` and `rider` are recorded as ids rather than display names). -/
structure GroupResult where
  success : Bool
  landmark : Nat
  reason : Option String
  rider : Option Nat
  order_count : Nat
  route_id : Option Nat
deriving DecidableEq

/-- `_assign_group_to_rider`: re-query the AVAILABLE pool, pick the best
rider, mutate the cohort's orders, create the route, and flip the selected
rider to ON_DELIVERY; on failure return the untouched state with a reason. -/
def assign_group_to_rider (db : DB) (landmark : Nat) (delivery_date : Nat)
    (orders : List Order) : DB × GroupResult :=
  let pool := available_riders db
  if pool = [] then
    (db, { success := false, landmark := landmark, reason := some "No available riders",
           rider := none, order_count := orders.length, route_id := none })
  else
    match find_best_rider db pool landmark orders with
    | none =>
      (db, { success := false, landmark := landmark, reason := some "No suitable rider found",
             rider := none, order_count := orders.length, route_id := none })
    | some best =>
      let ids := orders.map Order.id
      let db1 : DB := { db with orders := db.orders.map fun o =>
        if (ids.contains o.id) then
          { o with assigned_rider := some best.id, status := OrderStatus.assigned }
        else o }
      let rp := create_delivery_route db1 best landmark delivery_date orders
      let db3 : DB := { rp.1 with riders := rp.1.riders.map fun r =>
        if r.id == best.id then { r with status := RiderStatus.on_delivery } else r }
      (db3, { success := true, landmark := landmark, reason := none,
              rider := some best.id, order_count := orders.length,
              route_id := some rp.2.id })

/-- One step of `_group_orders_by_landmark_and_date`: append the order to its
`(landmark, delivery_date)` group, creating the group on first sight (Python
dicts preserve insertion order). -/
def add_to_group (acc : List ((Nat × Nat) × List Order)) (o : Order) :
    List ((Nat × Nat) × List Order) :=
  if acc.any (fun g => g.1 == (o.landmark, o.delivery_date)) then
    acc.map fun g =>
      if g.1 == (o.landmark, o.delivery_date) then (g.1, g.2 ++ [o]) else g
  else acc ++ [((o.landmark, o.delivery_date), [o])]

/-- `_group_orders_by_landmark_and_date`. -/
def group_orders_by_landmark_and_date (orders : List Order) :
    List ((Nat × Nat) × List Order) :=
  orders.foldl add_to_group []

/-- Report returned by `assign_orders_to_riders`. -/
structure AssignReport where
  status : String
  message : Option String
  assigned_count : Nat
  total_orders : Nat
  details : List GroupResult
deriving DecidableEq

/-- One iteration of the cohort loop in `assign_orders_to_riders`, threading
the database, the running assigned-order count and the result list. -/
def assign_step (s : DB × Nat × List GroupResult) (g : (Nat × Nat) × List Order) :
    DB × Nat × List GroupResult :=
  let dr := assign_group_to_rider s.1 g.1.1 g.1.2 g.2
  (dr.1, (if dr.2.success then s.2.1 + g.2.length else s.2.1), s.2.2 ++ [dr.2])

/-- `assign_orders_to_riders` on an explicit working set (the snapshot the
Python queryset caches once grouping iterates it): short-circuit on an empty
set, group, then process every cohort, collecting per-cohort outcomes. -/
def assign_orders_to_riders (db : DB) (orders_queryset : List Order) :
    DB × AssignReport :=
  if orders_queryset = [] then
    (db, { status := "no_orders", message := some "No orders to assign",
           assigned_count := 0, total_orders := 0, details := [] })
  else
    let grouped := group_orders_by_landmark_and_date orders_queryset
    let s := grouped.foldl assign_step (db, 0, [])
    (s.1, { status := "success", message := none, assigned_count := s.2.1,
            total_orders := orders_queryset.length, details := s.2.2 })

/-- Membership test of `DeliveryRoute.objects.filter(rider=..., route_date=...,
completed=False)` used by `optimize_rider_route`. -/
def route_is_open (rider_id : Nat) (route_date : Nat) (rt : DeliveryRoute) : Bool :=
  rt.rider == rider_id && rt.route_date == route_date && rt.completed == false

/-- `order_by('estimated_arrival')`: ascending estimated arrival. -/
def arrival_order (a b : DeliveryRoute) : Prop :=
  a.estimated_arrival ≤ b.estimated_arrival

instance : DecidableRel arrival_order := fun a b =>
  inferInstanceAs (Decidable (a.estimated_arrival ≤ b.estimated_arrival))

instance : IsTotal DeliveryRoute arrival_order :=
  ⟨fun a b => Nat.le_total a.estimated_arrival b.estimated_arrival⟩

instance : IsTrans DeliveryRoute arrival_order :=
  ⟨fun _ _ _ hab hbc => Nat.le_trans hab hbc⟩

/-- The rider's incomplete routes for the date, in ascending
`estimated_arrival` order (stable over the stored order). -/
def sorted_incomplete (db : DB) (rider_id : Nat) (route_date : Nat) :
    List DeliveryRoute :=
  (db.routes.filter (route_is_open rider_id route_date)).insertionSort arrival_order

/-- Write-back of `route.sequence = idx; route.save()`: a route whose id sits
at position `i` of the sorted id list receives sequence `i + 1`. -/
def route_renumber (ids : List Nat) (rt : DeliveryRoute) : DeliveryRoute :=
  match ids.findIdx? fun i => i == rt.id with
  | some i => { rt with sequence := (i : Int) + 1 }
  | none => rt

/-- `optimize_rider_route`: renumber the rider's incomplete routes for the
date to `sequence = 1..N` in ascending `estimated_arrival` order. The
response summary the view builds from the same data is omitted. -/
def optimize_rider_route (db : DB) (rider_id : Nat) (route_date : Nat) : DB :=
  let ids := (sorted_incomplete db rider_id route_date).map DeliveryRoute.id
  { db with routes := db.routes.map (route_renumber ids) }

/-- Counter update of `OrderUpdateStatusView.post` on `DELIVERED`:
`total_deliveries += 1; successful_deliveries += 1` on the assigned rider. -/
def bump_delivered (db : DB) (rider_id : Nat) : DB :=
  { db with riders := db.riders.map fun r =>
      if r.id == rider_id then
        { r with total_deliveries := r.total_deliveries + 1,
                 successful_deliveries := r.successful_deliveries + 1 }
      else r }

/-- Counter update of `OrderUpdateStatusView.post` on `FAILED`:
`total_deliveries += 1; failed_deliveries += 1` on the assigned rider. -/
def bump_failed (db : DB) (rider_id : Nat) : DB :=
  { db with riders := db.riders.map fun r =>
      if r.id == rider_id then
        { r with total_deliveries := r.total_deliveries + 1,
                 failed_deliveries := r.failed_deliveries + 1 }
      else r }

/-- Core of `OrderUpdateStatusView.post` after serializer validation: set the
new status (plus proof or failure note), bump the assigned rider's counters
on a DELIVERED or FAILED transition, and save the order. `none` models the
404 on an unknown order id; `delivered_at` (wall clock) is omitted. -/
def order_update_status (db : DB) (order_id : Nat) (new_status : OrderStatus)
    (proof_note : String) (failure_note : String) : Option DB :=
  match db.orders.find? fun o => o.id == order_id with
  | none => none
  | some o =>
    let o1 :=
      if new_status = OrderStatus.delivered then
        { o with status := new_status, delivery_proof := proof_note }
      else if new_status = OrderStatus.failed then
        { o with status := new_status, failure_reason := failure_note }
      else { o with status := new_status }
    let db1 :=
      if new_status = OrderStatus.delivered then
        match o.assigned_rider with
        | some rid => bump_delivered db rid
        | none => db
      else if new_status = OrderStatus.failed then
        match o.assigned_rider with
        | some rid => bump_failed db rid
        | none => db
      else db
    some { db1 with orders := db1.orders.map fun x => if x.id == order_id then o1 else x }

/-- Core of `ManualAssignOrderView.post` for a staff request carrying a valid
`rider_id`: mutate the single order (assigned rider, status ASSIGNED) and
create a fresh single-order route with `sequence` forced to `1`. The rider
row is never written. `none` models the 404 on an unknown order or rider. -/
def manual_assign_order (db : DB) (order_id : Nat) (rider_id : Nat) : Option DB :=
  match db.orders.find? fun o => o.id == order_id,
        db.riders.find? fun r => r.id == rider_id with
  | some o, some _ =>
    let db1 : DB := { db with orders := db.orders.map fun x =>
      if x.id == order_id then
        { x with assigned_rider := some rider_id, status := OrderStatus.assigned }
      else x }
    let route : DeliveryRoute :=
      { id := db1.nextRouteId
        rider := rider_id
        route_date := o.delivery_date
        landmark := o.landmark
        sequence := 1
        estimated_arrival := o.delivery_time_start
        completed := false
        orders := [o.id] }
    some { db1 with routes := db1.routes ++ [route], nextRouteId := db1.nextRouteId + 1 }
  | _, _ => none

/-- The head that a stable sort under `r` puts first: recursing over the
input, keep the current element when it `r`-precedes the best of the rest.
Used to state what `(l.insertionSort r).head?` selects. -/
def pickFirst {α : Type} (r : α → α → Prop) [DecidableRel r] : List α → Option α
  | [] => none
  | x :: xs =>
    match pickFirst r xs with
    | none => some x
    | some y => if r x y then some x else some y

/-- The rider ids recorded in the successful per-cohort outcomes of a report. -/
def selected_riders (results : List GroupResult) : List Nat :=
  results.filterMap GroupResult.rider

/-- Invariant threaded through the cohort loop: every rider row whose id was
already selected in this pass carries status ON_DELIVERY. -/
def selected_flagged (db : DB) (sel : List Nat) : Prop :=
  ∀ r ∈ db.riders, r.id ∈ sel → r.status = RiderStatus.on_delivery

/-- `N` successive `_create_delivery_route` calls for the same rider, landmark
and date (one per order list in `oss`), keeping only the database. -/
def create_routes_fold (db : DB) (rider : Rider) (landmark : Nat)
    (delivery_date : Nat) (oss : List (List Order)) : DB :=
  oss.foldl (fun s os => (create_delivery_route s rider landmark delivery_date os).1) db

/-! Concrete states used to evaluate the theorems on explicit inputs. -/

/-- An AVAILABLE rider with the maximal profile: landmark 7 preferred,
rating 5, ten out of ten deliveries successful. -/
def exRiderTop : Rider :=
  { id := 1
    preferred_landmarks := [7]
    status := RiderStatus.available
    total_deliveries := 10
    successful_deliveries := 10
    failed_deliveries := 0
    rating := 5 }

/-- An AVAILABLE rider whose every score component is zero: rating 0, no
recorded delivery, no preferred landmark, six same-day active assignments
(see `exDb0`). -/
def exRider0 : Rider :=
  { id := 3
    preferred_landmarks := []
    status := RiderStatus.available
    total_deliveries := 0
    successful_deliveries := 0
    failed_deliveries := 0
    rating := 0 }

/-- A rider whose stored rating exceeds the documented [0,5] domain. -/
def exRider6 : Rider :=
  { id := 2
    preferred_landmarks := []
    status := RiderStatus.available
    total_deliveries := 0
    successful_deliveries := 0
    failed_deliveries := 0
    rating := 6 }

/-- An order already assigned to rider 3 for date 5 (builds workload). -/
def exBusyOrder (n : Nat) : Order :=
  { id := n
    landmark := 2
    delivery_date := 5
    delivery_time_start := 540
    delivery_time_end := 600
    status := OrderStatus.assigned
    assigned_rider := some 3
    delivery_proof := ""
    failure_reason := "" }

/-- A CONFIRMED unassigned order at landmark 1, date 5. -/
def exOrder9 : Order :=
  { id := 9
    landmark := 1
    delivery_date := 5
    delivery_time_start := 540
    delivery_time_end := 600
    status := OrderStatus.confirmed
    assigned_rider := none
    delivery_proof := ""
    failure_reason := "" }

/-- State with a single AVAILABLE rider whose total score is zero: rider 3
has rating 0, no recorded delivery, and six ASSIGNED orders for date 5. -/
def exDb0 : DB :=
  { riders := [exRider0]
    orders := [exBusyOrder 10, exBusyOrder 11, exBusyOrder 12, exBusyOrder 13,
               exBusyOrder 14, exBusyOrder 15, exOrder9]
    routes := []
    nextRouteId := 1 }

/-- A CONFIRMED unassigned order at landmark 7, date 3, window 09:00-10:00. -/
def exOrderA : Order :=
  { id := 21
    landmark := 7
    delivery_date := 3
    delivery_time_start := 540
    delivery_time_end := 600
    status := OrderStatus.confirmed
    assigned_rider := none
    delivery_proof := ""
    failure_reason := "" }

/-- A CONFIRMED unassigned order at landmark 7, date 3, window 11:00-12:00. -/
def exOrderB : Order :=
  { id := 22
    landmark := 7
    delivery_date := 3
    delivery_time_start := 660
    delivery_time_end := 720
    status := OrderStatus.confirmed
    assigned_rider := none
    delivery_proof := ""
    failure_reason := "" }

/-- State with one AVAILABLE rider and two CONFIRMED orders of one cohort. -/
def exDbA : DB :=
  { riders := [exRiderTop]
    orders := [exOrderA, exOrderB]
    routes := []
    nextRouteId := 1 }

/-- State with no riders at all and one CONFIRMED order. -/
def exDbNoRiders : DB :=
  { riders := []
    orders := [exOrderA]
    routes := []
    nextRouteId := 1 }

/-- An existing route of rider 1 for date 3 with sequence 4. -/
def exRouteSeq4 : DeliveryRoute :=
  { id := 1
    rider := 1
    route_date := 3
    landmark := 7
    sequence := 4
    estimated_arrival := 480
    completed := false
    orders := [30] }

/-- State where rider 1 already has a date-3 route with sequence 4. -/
def exDbM : DB :=
  { riders := [exRiderTop]
    orders := []
    routes := [exRouteSeq4]
    nextRouteId := 2 }

/-- Incomplete route of rider 1, date 3, arriving 11:00, stale sequence 9. -/
def exRouteLate : DeliveryRoute :=
  { id := 11
    rider := 1
    route_date := 3
    landmark := 7
    sequence := 9
    estimated_arrival := 660
    completed := false
    orders := [21] }

/-- Incomplete route of rider 1, date 3, arriving 09:00, stale sequence 4. -/
def exRouteEarly : DeliveryRoute :=
  { id := 12
    rider := 1
    route_date := 3
    landmark := 2
    sequence := 4
    estimated_arrival := 540
    completed := false
    orders := [22] }

/-- Completed route of rider 1 for date 3; the optimizer must not touch it. -/
def exRouteDone : DeliveryRoute :=
  { id := 13
    rider := 1
    route_date := 3
    landmark := 1
    sequence := 1
    estimated_arrival := 500
    completed := true
    orders := [23] }

/-- State with two incomplete routes (stored late-first) and a completed one,
all of rider 1 for date 3. -/
def exDbR : DB :=
  { riders := [exRiderTop]
    orders := []
    routes := [exRouteLate, exRouteEarly, exRouteDone]
    nextRouteId := 14 }

/-- An order assigned to rider 1, awaiting its delivery outcome. -/
def exOrderAssigned : Order :=
  { id := 40
    landmark := 7
    delivery_date := 3
    delivery_time_start := 540
    delivery_time_end := 600
    status := OrderStatus.in_transit
    assigned_rider := some 1
    delivery_proof := ""
    failure_reason := "" }

/-- State with rider 1 and one IN_TRANSIT order assigned to rider 1. -/
def exDb9 : DB :=
  { riders := [exRiderTop]
    orders := [exOrderAssigned]
    routes := []
    nextRouteId := 1 }

/-- State where rider 3 has exactly two active date-5 assignments. -/
def exDbW2 : DB :=
  { riders := [exRider0]
    orders := [exBusyOrder 10, exBusyOrder 11]
    routes := []
    nextRouteId := 1 }

/-- State where rider 3 has exactly three active date-5 assignments. -/
def exDbW3 : DB :=
  { riders := [exRider0]
    orders := [exBusyOrder 10, exBusyOrder 11, exBusyOrder 12]
    routes := []
    nextRouteId := 1 }

/-! ### What the head of a stable sort selects -/

theorem pickFirst_eq_none {α : Type} (r : α → α → Prop) [DecidableRel r]
    (l : List α) : pickFirst r l = none ↔ l = [] := by
  cases l with
  | nil => simp [pickFirst]
  | cons x xs =>
    cases h : pickFirst r xs <;> simp [pickFirst, h]
    split <;> simp

theorem orderedInsert_head {α : Type} (r : α → α → Prop) [DecidableRel r]
    (x y : α) (ys : List α) :
    ((y :: ys).orderedInsert r x).head? = some (if r x y then x else y) := by
  by_cases h : r x y <;> simp [List.orderedInsert, h]

theorem insertionSort_head {α : Type} (r : α → α → Prop) [DecidableRel r]
    (l : List α) : (l.insertionSort r).head? = pickFirst r l := by
  induction l with
  | nil => rfl
  | cons x xs ih =>
    rw [List.insertionSort]
    cases hs : xs.insertionSort r with
    | nil =>
      have h0 : List.Perm (xs.insertionSort r) xs := List.perm_insertionSort r xs
      rw [hs] at h0
      have hxs : xs = [] := h0.symm.eq_nil
      subst hxs
      simp [List.orderedInsert, pickFirst]
    | cons y ys =>
      have h1 : pickFirst r xs = some y := by rw [← ih, hs]; rfl
      rw [orderedInsert_head, pickFirst, h1]
      by_cases h2 : r x y <;> simp [h2]

theorem pickFirst_score_spec {l : List (Rider × ℚ)} {y : Rider × ℚ}
    (h : pickFirst score_desc l = some y) :
    (∀ z ∈ l, z.2 ≤ y.2) ∧ ∃ l1 l2, l = l1 ++ y :: l2 ∧ ∀ z ∈ l1, z.2 < y.2 := by
  induction l generalizing y with
  | nil => simp [pickFirst] at h
  | cons x xs ih =>
    cases hp : pickFirst score_desc xs with
    | none =>
      have hxs : xs = [] := (pickFirst_eq_none score_desc xs).mp hp
      subst hxs
      simp [pickFirst] at h
      subst h
      exact ⟨by simp, [], [], rfl, by simp⟩
    | some w =>
      simp only [pickFirst, hp] at h
      by_cases hc : score_desc x w
      · rw [if_pos hc] at h
        have hxy : x = y := by injection h
        subst hxy
        obtain ⟨hall, l1, l2, hdec, hstr⟩ := ih hp
        refine ⟨?_, [], xs, rfl, by simp⟩
        intro z hz
        rcases List.mem_cons.mp hz with hz | hz
        · exact le_of_eq (by rw [hz])
        · exact le_trans (hall z hz) hc
      · rw [if_neg hc] at h
        have hwy : w = y := by injection h
        subst hwy
        have hxlt : x.2 < w.2 := lt_of_not_le hc
        obtain ⟨hall, l1, l2, hdec, hstr⟩ := ih hp
        refine ⟨?_, x :: l1, l2, by rw [hdec, List.cons_append], ?_⟩
        · intro z hz
          rcases List.mem_cons.mp hz with hz | hz
          · exact le_of_lt (by rw [hz]; exact hxlt)
          · exact hall z hz
        · intro z hz
          rcases List.mem_cons.mp hz with hz | hz
          · rw [hz]; exact hxlt
          · exact hstr z hz

theorem pickFirst_isSome {α : Type} (r : α → α → Prop) [DecidableRel r]
    (x : α) (xs : List α) : (pickFirst r (x :: xs)).isSome := by
  cases h : pickFirst r (x :: xs) with
  | none => exact absurd ((pickFirst_eq_none r (x :: xs)).mp h) (by simp)
  | some y => rfl

theorem map_pair_eq_append_cons {riders : List Rider} {g : Rider → ℚ}
    {l1 l2 : List (Rider × ℚ)} {p : Rider × ℚ}
    (h : riders.map (fun r => (r, g r)) = l1 ++ p :: l2) :
    ∃ r1 r2, riders = r1 ++ p.1 :: r2 ∧ r1.map (fun r => (r, g r)) = l1 ∧ g p.1 = p.2 := by
  induction riders generalizing l1 with
  | nil => simp at h
  | cons a as ih =>
    cases l1 with
    | nil =>
      simp only [List.map_cons, List.nil_append] at h
      have h1 : (a, g a) = p := by injection h
      have h2 : as.map (fun r => (r, g r)) = l2 := by injection h
      refine ⟨[], as, ?_, rfl, ?_⟩
      · simp [← h1]
      · simp [← h1]
    | cons q l1' =>
      simp only [List.map_cons, List.cons_append] at h
      have h1 : (a, g a) = q := by injection h
      have h2 : as.map (fun r => (r, g r)) = l1' ++ p :: l2 := by injection h
      obtain ⟨r1, r2, e1, e2, e3⟩ := ih h2
      exact ⟨a :: r1, r2, by rw [List.cons_append, e1], by rw [List.map_cons, e2, h1], e3⟩

theorem find_best_rider_cons (db : DB) (riders : List Rider) (landmark : Nat)
    (o0 : Order) (os : List Order) :
    find_best_rider db riders landmark (o0 :: os) =
      (pickFirst score_desc
        (riders.map fun r => (r, rider_score db landmark o0.delivery_date r))).map Prod.fst := by
  rw [find_best_rider, insertionSort_head]

theorem find_best_rider_spec (db : DB) (riders : List Rider) (landmark : Nat)
    (o0 : Order) (os : List Order) (b : Rider)
    (h : find_best_rider db riders landmark (o0 :: os) = some b) :
    (∀ r ∈ riders,
      rider_score db landmark o0.delivery_date r ≤ rider_score db landmark o0.delivery_date b) ∧
    ∃ l1 l2, riders = l1 ++ b :: l2 ∧
      ∀ r ∈ l1,
        rider_score db landmark o0.delivery_date r < rider_score db landmark o0.delivery_date b := by
  rw [find_best_rider_cons] at h
  cases hp : pickFirst score_desc
      (riders.map fun r => (r, rider_score db landmark o0.delivery_date r)) with
  | none => rw [hp] at h; simp at h
  | some y =>
    rw [hp] at h
    have hb : y.1 = b := by simpa using h
    obtain ⟨hall, l1, l2, hdec, hstr⟩ := pickFirst_score_spec hp
    obtain ⟨r1, r2, e1, e2, e3⟩ := map_pair_eq_append_cons hdec
    have hgb : rider_score db landmark o0.delivery_date b = y.2 := by rw [← hb]; exact e3
    constructor
    · intro r hr
      have hm := hall _ (List.mem_map_of_mem (fun r => (r, rider_score db landmark o0.delivery_date r)) hr)
      rw [hgb]
      exact hm
    · refine ⟨r1, r2, by rw [e1, hb], ?_⟩
      intro r hr
      have hm : (r, rider_score db landmark o0.delivery_date r) ∈ l1 := by
        rw [← e2]
        exact List.mem_map_of_mem (fun r => (r, rider_score db landmark o0.delivery_date r)) hr
      have := hstr _ hm
      rw [hgb]
      exact this

theorem find_best_rider_isSome (db : DB) (riders : List Rider) (landmark : Nat)
    (o0 : Order) (os : List Order) (hne : riders ≠ []) :
    (find_best_rider db riders landmark (o0 :: os)).isSome := by
  rw [find_best_rider_cons]
  cases riders with
  | nil => exact absurd rfl hne
  | cons a as =>
    rw [List.map_cons]
    have h1 := pickFirst_isSome score_desc (a, rider_score db landmark o0.delivery_date a)
      (as.map fun r => (r, rider_score db landmark o0.delivery_date r))
    cases hp : pickFirst score_desc ((a, rider_score db landmark o0.delivery_date a) ::
        as.map fun r => (r, rider_score db landmark o0.delivery_date r)) with
    | none => rw [hp] at h1; simp at h1
    | some y => rfl

theorem find_best_rider_mem (db : DB) (riders : List Rider) (landmark : Nat)
    (o0 : Order) (os : List Order) (b : Rider)
    (h : find_best_rider db riders landmark (o0 :: os) = some b) : b ∈ riders := by
  obtain ⟨_, l1, l2, hdec, _⟩ := find_best_rider_spec db riders landmark o0 os b h
  rw [hdec]
  simp

/-- **C5**: rider scoring and selection is deterministic — the embedding is a
pure function of the database, rider list and cohort, so identical inputs
yield identical scores and an identical selection — and ties are broken by
input iteration order: every selected rider is a member of the input list,
scores at least as high as every rider of the list, and strictly higher than
every rider placed before it, i.e. it is the first rider attaining the
maximal total score. -/
theorem selection_first_seen_max (db : DB) (riders : List Rider)
    (landmark : Nat) (o0 : Order) (os : List Order) (b : Rider)
    (h : find_best_rider db riders landmark (o0 :: os) = some b) :
    b ∈ riders ∧
    (∀ r ∈ riders,
      rider_score db landmark o0.delivery_date r ≤ rider_score db landmark o0.delivery_date b) ∧
    ∃ l1 l2, riders = l1 ++ b :: l2 ∧
      ∀ r ∈ l1,
        rider_score db landmark o0.delivery_date r < rider_score db landmark o0.delivery_date b := by
  obtain ⟨hall, l1, l2, hdec, hstr⟩ := find_best_rider_spec db riders landmark o0 os b h
  exact ⟨by rw [hdec]; simp, hall, l1, l2, hdec, hstr⟩

/-- Witness for `selection_first_seen_max` at a concrete one-rider state. -/
theorem selection_first_seen_max_witness :
    exRiderTop ∈ [exRiderTop] ∧
    (∀ r ∈ [exRiderTop],
      rider_score exDbA 7 exOrderA.delivery_date r ≤ rider_score exDbA 7 exOrderA.delivery_date exRiderTop) ∧
    ∃ l1 l2, [exRiderTop] = l1 ++ exRiderTop :: l2 ∧
      ∀ r ∈ l1,
        rider_score exDbA 7 exOrderA.delivery_date r < rider_score exDbA 7 exOrderA.delivery_date exRiderTop :=
  selection_first_seen_max exDbA [exRiderTop] 7 exOrderA [exOrderB] exRiderTop rfl

theorem available_riders_ne_nil {db : DB}
    (h : db.riders.filter (fun r => r.status == RiderStatus.available) ≠ []) :
    available_riders db ≠ [] := by
  intro hnil
  have hperm := List.perm_insertionSort rider_pool_order
    (db.riders.filter fun r => r.status == RiderStatus.available)
  rw [available_riders] at hnil
  rw [hnil] at hperm
  exact h hperm.symm.eq_nil

/-- **C1** (counterexample to the claim as stated): a state whose AVAILABLE
set is non-empty while no rider scores positively — rider 3 has no preferred
landmark, six active same-day assignments, rating 0 and no recorded delivery
— on which `_assign_group_to_rider` does NOT fail with "No suitable rider
found": it selects the zero-score rider. -/
theorem zero_score_rider_still_selected :
    (exDb0.riders.filter fun r => r.status == RiderStatus.available) ≠ [] ∧
    (∀ r ∈ exDb0.riders, rider_score exDb0 1 5 r ≤ 0) ∧
    (assign_group_to_rider exDb0 1 5 [exOrder9]).2.success = true ∧
    (assign_group_to_rider exDb0 1 5 [exOrder9]).2.reason = none ∧
    (assign_group_to_rider exDb0 1 5 [exOrder9]).2.rider = some 3 := by
  refine ⟨by decide, ?_, by decide, by decide, by decide⟩
  intro r hr
  have hr0 : r = exRider0 := by simpa [exDb0] using hr
  subst hr0
  have hca : current_assignments exDb0 3 5 = 6 := rfl
  simp only [rider_score, familiarity_score, rating_score, success_score,
    Rider.success_rate, exRider0, hca, workload_score]
  norm_num

/-- **C1** (amended): with a non-empty AVAILABLE rider set and a non-empty
cohort, `_assign_group_to_rider` always succeeds and selects a rider — even
when no rider scores positively. The "No suitable rider found" branch fires
exactly when scoring yields no candidate, i.e. when the scored list is empty,
which cannot happen for a non-empty pool. -/
theorem nonempty_pool_always_selects (db : DB) (landmark : Nat)
    (delivery_date : Nat) (o0 : Order) (os : List Order)
    (h : db.riders.filter (fun r => r.status == RiderStatus.available) ≠ []) :
    (assign_group_to_rider db landmark delivery_date (o0 :: os)).2.success = true ∧
    (assign_group_to_rider db landmark delivery_date (o0 :: os)).2.rider.isSome ∧
    (assign_group_to_rider db landmark delivery_date (o0 :: os)).2.reason = none := by
  have hpool : available_riders db ≠ [] := available_riders_ne_nil h
  have hsome := find_best_rider_isSome db (available_riders db) landmark o0 os hpool
  obtain ⟨best, hbest⟩ := Option.isSome_iff_exists.mp hsome
  simp only [assign_group_to_rider, if_neg hpool, hbest]
  exact ⟨trivial, rfl, trivial⟩

/-- Witness for `nonempty_pool_always_selects` at a concrete state. -/
theorem nonempty_pool_always_selects_witness :
    (assign_group_to_rider exDbA 7 3 (exOrderA :: [exOrderB])).2.success = true ∧
    (assign_group_to_rider exDbA 7 3 (exOrderA :: [exOrderB])).2.rider.isSome ∧
    (assign_group_to_rider exDbA 7 3 (exOrderA :: [exOrderB])).2.reason = none :=
  nonempty_pool_always_selects exDbA 7 3 exOrderA [exOrderB] (by decide)

/-- **C2** (counterexample to the claim as stated): the code never clamps the
stored rating — a rider whose rating is 6 gets rating component
`(6 / 5) * 25 = 30`, not 25. -/
theorem rating_above_five_not_clamped :
    (5 : ℚ) < exRider6.rating ∧ rating_score exRider6 = 30 ∧ rating_score exRider6 ≠ 25 := by
  refine ⟨by norm_num [exRider6], ?_, ?_⟩ <;> norm_num [rating_score, exRider6]

/-- **C2** (amended): the rating component of the suitability score is
`(rating / 5.0) * 25` computed on the stored rating with no clamping; for a
rider whose stored rating exceeds 5 the component exceeds 25. -/
theorem rating_component_unclamped (r : Rider) :
    rating_score r = r.rating / 5 * 25 ∧ (5 < r.rating → 25 < rating_score r) := by
  refine ⟨rfl, fun h => ?_⟩
  have he : r.rating / 5 * 25 = r.rating * 5 := by ring
  rw [rating_score, he]
  linarith

/-- Witness for `rating_component_unclamped` at the rating-6 rider. -/
theorem rating_component_unclamped_witness :
    (5 : ℚ) < exRider6.rating ∧
    (rating_score exRider6 = exRider6.rating / 5 * 25 ∧
      (5 < exRider6.rating → 25 < rating_score exRider6)) ∧
    25 < rating_score exRider6 := by
  refine ⟨by norm_num [exRider6], rating_component_unclamped exRider6, ?_⟩
  exact (rating_component_unclamped exRider6).2 (by norm_num [exRider6])

/-- **C8**: the workload component of a rider's score is determined by the
count of the rider's ASSIGNED or IN_TRANSIT orders for the cohort's delivery
date, bucketed as 0 → +25, 1..2 → +15, 3..5 → +5, above 5 → +0; the total
score sums familiarity, workload, rating and success-rate components. -/
theorem workload_bucket_boundaries (db : DB) (landmark : Nat)
    (delivery_date : Nat) (r : Rider) :
    (current_assignments db r.id delivery_date = 0 →
      workload_score (current_assignments db r.id delivery_date) = 25) ∧
    (1 ≤ current_assignments db r.id delivery_date ∧
        current_assignments db r.id delivery_date ≤ 2 →
      workload_score (current_assignments db r.id delivery_date) = 15) ∧
    (3 ≤ current_assignments db r.id delivery_date ∧
        current_assignments db r.id delivery_date ≤ 5 →
      workload_score (current_assignments db r.id delivery_date) = 5) ∧
    (5 < current_assignments db r.id delivery_date →
      workload_score (current_assignments db r.id delivery_date) = 0) ∧
    rider_score db landmark delivery_date r =
      familiarity_score r landmark
        + workload_score (current_assignments db r.id delivery_date)
        + rating_score r + success_score r := by
  refine ⟨?_, ?_, ?_, ?_, rfl⟩ <;>
    · intro hn
      rw [workload_score]
      split_ifs <;> first | rfl | omega

/-- Witness for `workload_bucket_boundaries` at the bucket boundary the spec
singles out: exactly two active assignments score +15, exactly three +5. -/
theorem workload_bucket_boundaries_witness :
    (1 ≤ current_assignments exDbW2 exRider0.id 5 ∧
      current_assignments exDbW2 exRider0.id 5 ≤ 2) ∧
    workload_score (current_assignments exDbW2 exRider0.id 5) = 15 ∧
    (3 ≤ current_assignments exDbW3 exRider0.id 5 ∧
      current_assignments exDbW3 exRider0.id 5 ≤ 5) ∧
    workload_score (current_assignments exDbW3 exRider0.id 5) = 5 :=
  ⟨⟨by decide, by decide⟩,
   (workload_bucket_boundaries exDbW2 1 5 exRider0).2.1 ⟨by decide, by decide⟩,
   ⟨by decide, by decide⟩,
   (workload_bucket_boundaries exDbW3 1 5 exRider0).2.2.1 ⟨by decide, by decide⟩⟩

theorem assign_group_failure (db : DB) (landmark : Nat) (delivery_date : Nat)
    (og : List Order)
    (h : (assign_group_to_rider db landmark delivery_date og).2.success = false) :
    (assign_group_to_rider db landmark delivery_date og).1 = db ∧
    ((assign_group_to_rider db landmark delivery_date og).2.reason = some "No available riders" ∨
      (assign_group_to_rider db landmark delivery_date og).2.reason = some "No suitable rider found") ∧
    (assign_group_to_rider db landmark delivery_date og).2.order_count = og.length := by
  by_cases hpool : available_riders db = []
  · simp only [assign_group_to_rider, if_pos hpool]
    exact ⟨trivial, Or.inl trivial, trivial⟩
  · cases hfb : find_best_rider db (available_riders db) landmark og with
    | none =>
      simp only [assign_group_to_rider, if_neg hpool, hfb]
      exact ⟨trivial, Or.inr trivial, trivial⟩
    | some best =>
      exfalso
      have hs : (assign_group_to_rider db landmark delivery_date og).2.success = true := by
        simp only [assign_group_to_rider, if_neg hpool, hfb]
      rw [hs] at h
      exact Bool.noConfusion h

theorem assign_fold_length (groups : List ((Nat × Nat) × List Order)) (db : DB)
    (count : Nat) (acc : List GroupResult) :
    (groups.foldl assign_step (db, count, acc)).2.2.length = acc.length + groups.length := by
  induction groups generalizing db count acc with
  | nil => simp
  | cons g gs ih =>
    rw [List.foldl_cons]
    have h2 := ih (assign_step (db, count, acc) g).1 (assign_step (db, count, acc) g).2.1
      (assign_step (db, count, acc) g).2.2
    have hstep : (assign_step (db, count, acc) g).2.2.length = acc.length + 1 := by
      simp [assign_step]
    rw [h2, hstep, List.length_cons]
    omega

/-- **C4**: when a cohort's assignment fails, the database is returned
untouched (its orders keep their status and null `assigned_rider`, no route
row appears), a failure entry carrying the reason string and the cohort's
order count is recorded, and `assign_orders_to_riders` — a total function
that never raises — still reports status `success` with exactly one detail
entry per cohort. -/
theorem failed_cohort_leaves_state_untouched :
    (∀ (db : DB) (landmark delivery_date : Nat) (og : List Order),
      (assign_group_to_rider db landmark delivery_date og).2.success = false →
        (assign_group_to_rider db landmark delivery_date og).1 = db ∧
        ((assign_group_to_rider db landmark delivery_date og).2.reason = some "No available riders" ∨
          (assign_group_to_rider db landmark delivery_date og).2.reason = some "No suitable rider found") ∧
        (assign_group_to_rider db landmark delivery_date og).2.order_count = og.length) ∧
    ∀ (db : DB) (qs : List Order), qs ≠ [] →
      (assign_orders_to_riders db qs).2.status = "success" ∧
      (assign_orders_to_riders db qs).2.details.length =
        (group_orders_by_landmark_and_date qs).length := by
  refine ⟨assign_group_failure, fun db qs hqs => ?_⟩
  simp only [assign_orders_to_riders, if_neg hqs]
  refine ⟨trivial, ?_⟩
  have := assign_fold_length (group_orders_by_landmark_and_date qs) db 0 []
  simpa using this

/-- Witness for `failed_cohort_leaves_state_untouched`: a riderless state
where the cohort fails with "No available riders" and the state is returned
unchanged, and a two-order one-cohort run reporting one detail entry. -/
theorem failed_cohort_leaves_state_untouched_witness :
    ((assign_group_to_rider exDbNoRiders 7 3 [exOrderA]).1 = exDbNoRiders ∧
      ((assign_group_to_rider exDbNoRiders 7 3 [exOrderA]).2.reason = some "No available riders" ∨
        (assign_group_to_rider exDbNoRiders 7 3 [exOrderA]).2.reason = some "No suitable rider found") ∧
      (assign_group_to_rider exDbNoRiders 7 3 [exOrderA]).2.order_count = [exOrderA].length) ∧
    ((assign_orders_to_riders exDbA [exOrderA, exOrderB]).2.status = "success" ∧
      (assign_orders_to_riders exDbA [exOrderA, exOrderB]).2.details.length =
        (group_orders_by_landmark_and_date [exOrderA, exOrderB]).length) :=
  ⟨failed_cohort_leaves_state_untouched.1 exDbNoRiders 7 3 [exOrderA] (by decide),
   failed_cohort_leaves_state_untouched.2 exDbA [exOrderA, exOrderB] (by decide)⟩

theorem assign_group_riders_cases (db : DB) (landmark : Nat) (delivery_date : Nat)
    (og : List Order) :
    ((assign_group_to_rider db landmark delivery_date og).2.rider = none ∧
      (assign_group_to_rider db landmark delivery_date og).1 = db) ∨
    (∃ best, best ∈ db.riders ∧ best.status = RiderStatus.available ∧
      (assign_group_to_rider db landmark delivery_date og).2.rider = some best.id ∧
      (assign_group_to_rider db landmark delivery_date og).1.riders =
        db.riders.map (fun r =>
          if r.id == best.id then { r with status := RiderStatus.on_delivery } else r)) := by
  by_cases hpool : available_riders db = []
  · left
    simp only [assign_group_to_rider, if_pos hpool]
    exact ⟨trivial, trivial⟩
  · cases hfb : find_best_rider db (available_riders db) landmark og with
    | none =>
      left
      simp only [assign_group_to_rider, if_neg hpool, hfb]
      exact ⟨trivial, trivial⟩
    | some best =>
      right
      have hmem_pool : best ∈ available_riders db := by
        cases og with
        | nil => rw [find_best_rider] at hfb; exact Option.noConfusion hfb
        | cons o0 os => exact find_best_rider_mem db _ landmark o0 os best hfb
      have hmem : best ∈ db.riders.filter (fun r => r.status == RiderStatus.available) := by
        rw [available_riders] at hmem_pool
        exact (List.mem_insertionSort rider_pool_order).mp hmem_pool
      obtain ⟨hmem', hstat⟩ := List.mem_filter.mp hmem
      refine ⟨best, hmem', by simpa using hstat, ?_, ?_⟩
      · simp only [assign_group_to_rider, if_neg hpool, hfb]
      · simp only [assign_group_to_rider, if_neg hpool, hfb, create_delivery_route]

theorem assign_step_preserves (db : DB) (count : Nat) (acc : List GroupResult)
    (g : (Nat × Nat) × List Order)
    (hinv : selected_flagged db (selected_riders acc))
    (hnd : (selected_riders acc).Nodup) :
    selected_flagged (assign_step (db, count, acc) g).1
      (selected_riders (assign_step (db, count, acc) g).2.2) ∧
    (selected_riders (assign_step (db, count, acc) g).2.2).Nodup := by
  have hsr : (assign_step (db, count, acc) g).2.2 =
      acc ++ [(assign_group_to_rider db g.1.1 g.1.2 g.2).2] := rfl
  have hdb : (assign_step (db, count, acc) g).1 =
      (assign_group_to_rider db g.1.1 g.1.2 g.2).1 := rfl
  rcases assign_group_riders_cases db g.1.1 g.1.2 g.2 with
    ⟨hr, hdb'⟩ | ⟨best, hmem, hstat, hr, hriders⟩
  · have hsel : selected_riders (acc ++ [(assign_group_to_rider db g.1.1 g.1.2 g.2).2]) =
        selected_riders acc := by
      rw [selected_riders, List.filterMap_append]
      simp [selected_riders, hr]
    rw [hsr, hdb, hsel, hdb']
    exact ⟨hinv, hnd⟩
  · have hsel : selected_riders (acc ++ [(assign_group_to_rider db g.1.1 g.1.2 g.2).2]) =
        selected_riders acc ++ [best.id] := by
      rw [selected_riders, List.filterMap_append]
      simp [selected_riders, hr]
    have hfresh : best.id ∉ selected_riders acc := by
      intro hin
      have hcon := hinv best hmem hin
      rw [hstat] at hcon
      exact RiderStatus.noConfusion hcon
    rw [hsr, hdb, hsel]
    constructor
    · intro r' hr' hin
      rw [hriders] at hr'
      obtain ⟨r, hrmem, hrfl⟩ := List.mem_map.mp hr'
      by_cases hid : (r.id == best.id) = true
      · rw [← hrfl, if_pos hid]
      · rw [← hrfl, if_neg hid]
        rw [← hrfl, if_neg hid] at hin
        rcases List.mem_append.mp hin with hin | hin
        · exact hinv r hrmem hin
        · exact absurd (by simpa using hin) (by simpa using hid)
    · rw [List.nodup_append]
      exact ⟨hnd, List.nodup_singleton _, by simpa using hfresh⟩

theorem assign_fold_nodup (groups : List ((Nat × Nat) × List Order)) (db : DB)
    (count : Nat) (acc : List GroupResult)
    (hinv : selected_flagged db (selected_riders acc))
    (hnd : (selected_riders acc).Nodup) :
    (selected_riders (groups.foldl assign_step (db, count, acc)).2.2).Nodup := by
  induction groups generalizing db count acc with
  | nil => simpa using hnd
  | cons g gs ih =>
    rw [List.foldl_cons]
    obtain ⟨h1, h2⟩ := assign_step_preserves db count acc g hinv hnd
    exact ih (assign_step (db, count, acc) g).1 (assign_step (db, count, acc) g).2.1
      (assign_step (db, count, acc) g).2.2 h1 h2

/-- **C3**: within one `assign_orders_to_riders` call no rider is selected for
two distinct cohorts: a rider selected for cohort N is flipped to ON_DELIVERY
and the AVAILABLE pool is re-queried per cohort, so the successful per-cohort
outcomes carry pairwise distinct rider ids. -/
theorem no_rider_selected_twice (db : DB) (qs : List Order) :
    (selected_riders (assign_orders_to_riders db qs).2.details).Nodup := by
  by_cases hqs : qs = []
  · subst hqs
    simp [assign_orders_to_riders, selected_riders]
  · simp only [assign_orders_to_riders, if_neg hqs]
    exact assign_fold_nodup (group_orders_by_landmark_and_date qs) db 0 []
      (fun r _ hin => absurd hin (List.not_mem_nil _)) List.nodup_nil

theorem max_sequence_append_le (l : List Int) (x : Int) (h : ∀ y ∈ l, y ≤ x) :
    max_sequence (l ++ [x]) = some x := by
  induction l with
  | nil => rfl
  | cons a l' ih =>
    rw [List.cons_append, max_sequence,
      ih (fun y hy => h y (List.mem_cons_of_mem a hy))]
    show some (max a x) = some x
    rw [max_eq_right (h a (List.mem_cons_self a l'))]

theorem max_sequence_range (k : Nat) :
    max_sequence ((List.range' 1 k).map fun n : Nat => (n : Int)) =
      if k = 0 then none else some (k : Int) := by
  cases k with
  | zero => rfl
  | succ j =>
    rw [List.range'_concat, show 1 + 1 * j = j + 1 by omega, List.map_append,
      List.map_cons, List.map_nil]
    rw [max_sequence_append_le]
    · simp
    · intro y hy
      obtain ⟨n, hn, rfl⟩ := List.mem_map.mp hy
      have h2 := List.mem_range'_1.mp hn
      omega

theorem routes_for_create (db : DB) (rider : Rider) (landmark : Nat) (d : Nat)
    (os : List Order) :
    routes_for (create_delivery_route db rider landmark d os).1 rider.id d =
      routes_for db rider.id d ++ [(create_delivery_route db rider landmark d os).2] := by
  simp only [create_delivery_route, routes_for]
  rw [List.filter_append]
  simp

theorem create_sequence (db : DB) (rider : Rider) (landmark : Nat) (d : Nat)
    (os : List Order) (k : Nat)
    (h : (routes_for db rider.id d).map DeliveryRoute.sequence =
      (List.range' 1 k).map fun n : Nat => (n : Int)) :
    (create_delivery_route db rider landmark d os).2.sequence = ((k + 1 : Nat) : Int) := by
  simp only [create_delivery_route]
  rw [h, max_sequence_range]
  cases k with
  | zero => simp
  | succ j =>
    simp only [Nat.succ_ne_zero, if_false]
    push_cast
    ring

theorem create_routes_fold_seq (oss : List (List Order)) (db : DB) (rider : Rider)
    (landmark : Nat) (d : Nat) (k : Nat)
    (h : (routes_for db rider.id d).map DeliveryRoute.sequence =
      (List.range' 1 k).map fun n : Nat => (n : Int)) :
    (routes_for (create_routes_fold db rider landmark d oss) rider.id d).map
        DeliveryRoute.sequence =
      (List.range' 1 (k + oss.length)).map fun n : Nat => (n : Int) := by
  induction oss generalizing db k with
  | nil => simpa using h
  | cons os oss ih =>
    rw [create_routes_fold, List.foldl_cons]
    have hstep : (routes_for (create_delivery_route db rider landmark d os).1 rider.id d).map
        DeliveryRoute.sequence = (List.range' 1 (k + 1)).map fun n : Nat => (n : Int) := by
      rw [routes_for_create, List.map_append, h, List.map_cons, List.map_nil,
        create_sequence db rider landmark d os k h]
      rw [List.range'_concat, show 1 + 1 * k = k + 1 by omega, List.map_append]
      simp
    have hrec := ih (create_delivery_route db rider landmark d os).1 (k + 1) hstep
    rw [create_routes_fold] at hrec
    rw [show k + (os :: oss).length = (k + 1) + oss.length by simp; omega]
    exact hrec

/-- **C6**: `_create_delivery_route` assigns the next sequence as 1 + the
maximal existing sequence for the same rider and date, or 1 when no such
route exists; consequently, starting from no routes for the pair, N
successive creations yield the gapless ascending sequence numbers 1..N. -/
theorem route_sequences_gapless (db db2 : DB) (rider : Rider) (landmark : Nat)
    (d : Nat) (oss : List (List Order)) (os : List Order) (m : Int) :
    (routes_for db2 rider.id d = [] →
      (create_delivery_route db2 rider landmark d os).2.sequence = 1) ∧
    (max_sequence ((routes_for db2 rider.id d).map DeliveryRoute.sequence) = some m →
      (create_delivery_route db2 rider landmark d os).2.sequence = m + 1) ∧
    (routes_for db rider.id d = [] →
      (routes_for (create_routes_fold db rider landmark d oss) rider.id d).map
          DeliveryRoute.sequence =
        (List.range' 1 oss.length).map fun n : Nat => (n : Int)) := by
  refine ⟨fun h => ?_, fun h => ?_, fun h => ?_⟩
  · simp only [create_delivery_route]
    rw [h]
    rfl
  · simp only [create_delivery_route]
    rw [h]
  · have h0 : (routes_for db rider.id d).map DeliveryRoute.sequence =
        (List.range' 1 0).map fun n : Nat => (n : Int) := by rw [h]; rfl
    simpa using create_routes_fold_seq oss db rider landmark d 0 h0

/-- Witness for `route_sequences_gapless`: creation on a route-free state
gets sequence 1, creation after an existing sequence-4 route gets 5, and two
successive creations from scratch produce sequences [1, 2]. -/
theorem route_sequences_gapless_witness :
    (create_delivery_route exDbA exRiderTop 7 3 [exOrderA]).2.sequence = 1 ∧
    (create_delivery_route exDbM exRiderTop 7 3 [exOrderA]).2.sequence = 4 + 1 ∧
    (routes_for (create_routes_fold exDbA exRiderTop 7 3 [[exOrderA], [exOrderB]])
        exRiderTop.id 3).map DeliveryRoute.sequence =
      (List.range' 1 ([[exOrderA], [exOrderB]] : List (List Order)).length).map
        fun n : Nat => (n : Int) :=
  ⟨(route_sequences_gapless exDbA exDbA exRiderTop 7 3 [] [exOrderA] 0).1 (by decide),
   (route_sequences_gapless exDbA exDbM exRiderTop 7 3 [] [exOrderA] 4).2.1 (by decide),
   (route_sequences_gapless exDbA exDbA exRiderTop 7 3 [[exOrderA], [exOrderB]]
      [exOrderA] 0).2.2 (by decide)⟩

theorem route_renumber_id (ids : List Nat) (rt : DeliveryRoute) :
    (route_renumber ids rt).id = rt.id := by
  rw [route_renumber]
  cases ids.findIdx? (fun i => i == rt.id) <;> rfl

theorem route_renumber_rider (ids : List Nat) (rt : DeliveryRoute) :
    (route_renumber ids rt).rider = rt.rider := by
  rw [route_renumber]
  cases ids.findIdx? (fun i => i == rt.id) <;> rfl

theorem route_renumber_date (ids : List Nat) (rt : DeliveryRoute) :
    (route_renumber ids rt).route_date = rt.route_date := by
  rw [route_renumber]
  cases ids.findIdx? (fun i => i == rt.id) <;> rfl

theorem route_renumber_completed (ids : List Nat) (rt : DeliveryRoute) :
    (route_renumber ids rt).completed = rt.completed := by
  rw [route_renumber]
  cases ids.findIdx? (fun i => i == rt.id) <;> rfl

theorem route_renumber_arrival (ids : List Nat) (rt : DeliveryRoute) :
    (route_renumber ids rt).estimated_arrival = rt.estimated_arrival := by
  rw [route_renumber]
  cases ids.findIdx? (fun i => i == rt.id) <;> rfl

theorem route_renumber_twice (ids : List Nat) (rt : DeliveryRoute) :
    route_renumber ids (route_renumber ids rt) = route_renumber ids rt := by
  cases h : ids.findIdx? (fun i => i == rt.id) <;> simp [route_renumber, h]

theorem orderedInsert_map_renumber (ids : List Nat) (x : DeliveryRoute)
    (l : List DeliveryRoute) :
    (l.map (route_renumber ids)).orderedInsert arrival_order (route_renumber ids x) =
      (l.orderedInsert arrival_order x).map (route_renumber ids) := by
  induction l with
  | nil => rfl
  | cons y ys ih =>
    have harr : arrival_order (route_renumber ids x) (route_renumber ids y) ↔ arrival_order x y := by
      rw [arrival_order, arrival_order, route_renumber_arrival, route_renumber_arrival]
    by_cases h : arrival_order x y
    · rw [List.map_cons, List.orderedInsert, if_pos (harr.mpr h),
        List.orderedInsert, if_pos h, List.map_cons, List.map_cons]
    · rw [List.map_cons, List.orderedInsert, if_neg (fun hc => h (harr.mp hc)),
        List.orderedInsert, if_neg h, List.map_cons, ih]

theorem insertionSort_map_renumber (ids : List Nat) (l : List DeliveryRoute) :
    (l.map (route_renumber ids)).insertionSort arrival_order =
      (l.insertionSort arrival_order).map (route_renumber ids) := by
  induction l with
  | nil => rfl
  | cons x xs ih =>
    rw [List.map_cons, List.insertionSort, ih, orderedInsert_map_renumber, List.insertionSort]

theorem route_is_open_renumber (rid d : Nat) (ids : List Nat) (rt : DeliveryRoute) :
    route_is_open rid d (route_renumber ids rt) = route_is_open rid d rt := by
  rw [route_is_open, route_is_open, route_renumber_rider, route_renumber_date,
    route_renumber_completed]

theorem optimize_eq (db : DB) (rid d : Nat) :
    optimize_rider_route db rid d =
      { db with routes := (db.routes.map (route_renumber ((sorted_incomplete db rid d).map DeliveryRoute.id))) } := rfl

theorem sorted_incomplete_optimize (db : DB) (rid d : Nat) :
    sorted_incomplete (optimize_rider_route db rid d) rid d =
      (sorted_incomplete db rid d).map
        (route_renumber ((sorted_incomplete db rid d).map DeliveryRoute.id)) := by
  rw [optimize_eq]
  rw [sorted_incomplete]
  show ((db.routes.map _).filter _).insertionSort arrival_order = _
  rw [List.filter_map]
  have hp : ((route_is_open rid d) ∘
      (route_renumber ((sorted_incomplete db rid d).map DeliveryRoute.id))) = route_is_open rid d :=
    funext fun rt => route_is_open_renumber rid d _ rt
  rw [hp, insertionSort_map_renumber, sorted_incomplete]

/-- **C7** part 1: `optimize_rider_route` is idempotent. -/
theorem optimize_idempotent_aux (db : DB) (rid d : Nat) :
    optimize_rider_route (optimize_rider_route db rid d) rid d =
      optimize_rider_route db rid d := by
  have hids : (sorted_incomplete (optimize_rider_route db rid d) rid d).map DeliveryRoute.id =
      (sorted_incomplete db rid d).map DeliveryRoute.id := by
    rw [sorted_incomplete_optimize, List.map_map]
    have hcomp : (DeliveryRoute.id ∘
        route_renumber ((sorted_incomplete db rid d).map DeliveryRoute.id)) = DeliveryRoute.id :=
      funext fun rt => route_renumber_id _ rt
    rw [hcomp]
  rw [optimize_eq (optimize_rider_route db rid d) rid d, hids,
    optimize_eq db rid d]
  show DB.mk _ _ _ _ = DB.mk _ _ _ _
  congr 1
  rw [List.map_map]
  have hff : (route_renumber ((sorted_incomplete db rid d).map DeliveryRoute.id) ∘
      route_renumber ((sorted_incomplete db rid d).map DeliveryRoute.id)) =
      route_renumber ((sorted_incomplete db rid d).map DeliveryRoute.id) :=
    funext fun rt => route_renumber_twice _ rt
  rw [hff]

theorem findIdx_nodup_get (l : List Nat) (hl : l.Nodup) (i : Nat) (h : i < l.length) :
    l.findIdx? (fun x => x == l.get ⟨i, h⟩) = some i := by
  induction l generalizing i with
  | nil => exact absurd h (by simp)
  | cons a l' ih =>
    cases i with
    | zero => simp [List.findIdx?_cons]
    | succ j =>
      have hj : j < l'.length := Nat.lt_of_succ_lt_succ h
      have hget : (a :: l').get ⟨j + 1, h⟩ = l'.get ⟨j, hj⟩ := rfl
      have hne : a ≠ l'.get ⟨j, hj⟩ := by
        intro he
        exact (List.nodup_cons.mp hl).1 (he ▸ l'.get_mem j hj)
      rw [hget, List.findIdx?_cons]
      rw [if_neg (by simpa using hne)]
      rw [List.findIdx?_succ, ih (List.nodup_cons.mp hl).2 j hj]
      rfl

theorem sorted_incomplete_ids_nodup (db : DB) (rid d : Nat)
    (hnd : (db.routes.map DeliveryRoute.id).Nodup) :
    ((sorted_incomplete db rid d).map DeliveryRoute.id).Nodup := by
  have hperm : List.Perm (sorted_incomplete db rid d)
      (db.routes.filter (route_is_open rid d)) :=
    List.perm_insertionSort arrival_order _
  have hsub : (db.routes.filter (route_is_open rid d)).Sublist db.routes :=
    List.filter_sublist db.routes
  have h1 : ((db.routes.filter (route_is_open rid d)).map DeliveryRoute.id).Nodup :=
    List.Nodup.sublist (hsub.map DeliveryRoute.id) hnd
  exact ((hperm.map DeliveryRoute.id).nodup_iff).mpr h1

theorem orderedInsert_filter_arrival (t : Nat) (x : DeliveryRoute)
    (l : List DeliveryRoute) :
    (l.orderedInsert arrival_order x).filter (fun rt => rt.estimated_arrival == t) =
      if x.estimated_arrival == t then
        x :: l.filter (fun rt => rt.estimated_arrival == t)
      else l.filter (fun rt => rt.estimated_arrival == t) := by
  induction l with
  | nil =>
    rw [List.orderedInsert_nil, List.filter_cons, List.filter_nil]
  | cons y ys ih =>
    by_cases h : arrival_order x y
    · rw [List.orderedInsert, if_pos h, List.filter_cons]
    · rw [List.orderedInsert, if_neg h, List.filter_cons, List.filter_cons]
      cases hy : (y.estimated_arrival == t) with
      | false => rw [ih]; simp
      | true =>
        have hyx : ¬(x.estimated_arrival == t) = true := by
          intro hx
          exact h (le_of_eq ((eq_of_beq hx).trans (eq_of_beq hy).symm))
        rw [ih, if_neg hyx, if_neg hyx]

theorem insertionSort_filter_arrival (t : Nat) (l : List DeliveryRoute) :
    (l.insertionSort arrival_order).filter (fun rt => rt.estimated_arrival == t) =
      l.filter (fun rt => rt.estimated_arrival == t) := by
  induction l with
  | nil => rfl
  | cons x xs ih =>
    rw [List.insertionSort, orderedInsert_filter_arrival, List.filter_cons, ih]

/-- **C7**: `optimize_rider_route` is idempotent — a second run with no
intervening route change reproduces the same state — it renumbers the rider's
incomplete routes for the date to `sequence = i + 1` following ascending
`estimated_arrival` order, it preserves the stored relative order of routes
with equal `estimated_arrival` (stability), and it never modifies a completed
route. -/
theorem optimize_route_idempotent (db : DB) (rid d : Nat) (t : Nat)
    (hnd : (db.routes.map DeliveryRoute.id).Nodup) :
    optimize_rider_route (optimize_rider_route db rid d) rid d =
      optimize_rider_route db rid d ∧
    (∀ i, ∀ h : i < (sorted_incomplete db rid d).length,
      { (sorted_incomplete db rid d).get ⟨i, h⟩ with sequence := (i : Int) + 1 } ∈
        (optimize_rider_route db rid d).routes) ∧
    (∀ rt ∈ db.routes, rt.completed = true → rt ∈ (optimize_rider_route db rid d).routes) ∧
    List.Sorted arrival_order (sorted_incomplete db rid d) ∧
    (sorted_incomplete db rid d).filter (fun rt => rt.estimated_arrival == t) =
      (db.routes.filter (route_is_open rid d)).filter
        (fun rt => rt.estimated_arrival == t) := by
  have hids := sorted_incomplete_ids_nodup db rid d hnd
  refine ⟨optimize_idempotent_aux db rid d, ?_, ?_, ?_, ?_⟩
  · intro i h
    have hlen : i < ((sorted_incomplete db rid d).map DeliveryRoute.id).length := by
      simpa using h
    have hidx : ((sorted_incomplete db rid d).map DeliveryRoute.id).findIdx?
        (fun x => x == ((sorted_incomplete db rid d).map DeliveryRoute.id).get ⟨i, hlen⟩) =
        some i := findIdx_nodup_get _ hids i hlen
    have hget : ((sorted_incomplete db rid d).map DeliveryRoute.id).get ⟨i, hlen⟩ =
        ((sorted_incomplete db rid d).get ⟨i, h⟩).id := by
      rw [List.get_map]
    rw [hget] at hidx
    have hmem_s : (sorted_incomplete db rid d).get ⟨i, h⟩ ∈ sorted_incomplete db rid d :=
      (sorted_incomplete db rid d).get_mem i h
    have hmem_f : (sorted_incomplete db rid d).get ⟨i, h⟩ ∈
        db.routes.filter (route_is_open rid d) :=
      (List.perm_insertionSort arrival_order _).mem_iff.mp hmem_s
    have hmem_db : (sorted_incomplete db rid d).get ⟨i, h⟩ ∈ db.routes :=
      (List.mem_filter.mp hmem_f).1
    rw [optimize_eq]
    have : route_renumber ((sorted_incomplete db rid d).map DeliveryRoute.id)
        ((sorted_incomplete db rid d).get ⟨i, h⟩) =
        { (sorted_incomplete db rid d).get ⟨i, h⟩ with sequence := (i : Int) + 1 } := by
      rw [route_renumber, hidx]
    rw [← this]
    exact List.mem_map_of_mem _ hmem_db
  · intro rt hrt hcomp
    rw [optimize_eq]
    have hnone : ((sorted_incomplete db rid d).map DeliveryRoute.id).findIdx?
        (fun x => x == rt.id) = none := by
      rw [List.findIdx?_eq_none_iff]
      intro x hx
      obtain ⟨s, hs, rfl⟩ := List.mem_map.mp hx
      have hsf : s ∈ db.routes.filter (route_is_open rid d) :=
        (List.perm_insertionSort arrival_order _).mem_iff.mp hs
      obtain ⟨hsdb, hsopen⟩ := List.mem_filter.mp hsf
      by_cases he : s.id = rt.id
      · exfalso
        have hseq : s = rt := List.inj_on_of_nodup_map hnd hsdb hrt he
        subst hseq
        rw [route_is_open, hcomp] at hsopen
        simp at hsopen
      · simpa using he
    have hupd : route_renumber ((sorted_incomplete db rid d).map DeliveryRoute.id) rt = rt := by
      rw [route_renumber, hnone]
    rw [← hupd]
    exact List.mem_map_of_mem _ hrt
  · exact List.sorted_insertionSort arrival_order _
  · rw [sorted_incomplete, insertionSort_filter_arrival]

/-- Witness for `optimize_route_idempotent` at a state holding two incomplete
routes stored late-first and one completed route. -/
theorem optimize_route_idempotent_witness :
    optimize_rider_route (optimize_rider_route exDbR 1 3) 1 3 =
      optimize_rider_route exDbR 1 3 ∧
    (∀ i, ∀ h : i < (sorted_incomplete exDbR 1 3).length,
      { (sorted_incomplete exDbR 1 3).get ⟨i, h⟩ with sequence := (i : Int) + 1 } ∈
        (optimize_rider_route exDbR 1 3).routes) ∧
    (∀ rt ∈ exDbR.routes, rt.completed = true →
      rt ∈ (optimize_rider_route exDbR 1 3).routes) ∧
    List.Sorted arrival_order (sorted_incomplete exDbR 1 3) ∧
    (sorted_incomplete exDbR 1 3).filter (fun rt => rt.estimated_arrival == 540) =
      (exDbR.routes.filter (route_is_open 1 3)).filter
        (fun rt => rt.estimated_arrival == 540) :=
  optimize_route_idempotent exDbR 1 3 540 (by decide)

theorem find_map_update (l : List Rider) (rid : Nat) (r : Rider) (g : Rider → Rider)
    (hg : ∀ x, (g x).id = x.id)
    (h : l.find? (fun x => x.id == rid) = some r) :
    (l.map fun x => if x.id == rid then g x else x).find? (fun x => x.id == rid) =
      some (g r) := by
  induction l with
  | nil => simp at h
  | cons a l' ih =>
    by_cases hpa : (a.id == rid) = true
    · rw [@List.find?_cons_of_pos _ (fun x => x.id == rid) a l' hpa] at h
      have har : a = r := by injection h
      subst har
      rw [List.map_cons, if_pos hpa]
      have hpga : ((g a).id == rid) = true := by rw [hg a]; exact hpa
      exact @List.find?_cons_of_pos _ (fun x => x.id == rid) (g a) _ hpga
    · rw [@List.find?_cons_of_neg _ (fun x => x.id == rid) a l' hpa] at h
      rw [List.map_cons, if_neg hpa]
      rw [@List.find?_cons_of_neg _ (fun x => x.id == rid) a _ hpa]
      exact ih h

/-- **C9**: when an order holding an assigned rider is transitioned to
DELIVERED, that rider's `total_deliveries` and `successful_deliveries` each
grow by exactly one (`failed_deliveries` untouched); on FAILED,
`total_deliveries` and `failed_deliveries` each grow by one and
`successful_deliveries` is unchanged. -/
theorem delivery_outcome_updates_counters (db : DB) (oid rid : Nat) (o : Order)
    (r : Rider) (pf fr : String)
    (ho : db.orders.find? (fun x => x.id == oid) = some o)
    (hr : o.assigned_rider = some rid)
    (hrr : db.riders.find? (fun x => x.id == rid) = some r) :
    (∃ db1, order_update_status db oid OrderStatus.delivered pf fr = some db1 ∧
      db1.riders.find? (fun x => x.id == rid) =
        some { r with total_deliveries := r.total_deliveries + 1,
                      successful_deliveries := r.successful_deliveries + 1 }) ∧
    (∃ db2, order_update_status db oid OrderStatus.failed pf fr = some db2 ∧
      db2.riders.find? (fun x => x.id == rid) =
        some { r with total_deliveries := r.total_deliveries + 1,
                      failed_deliveries := r.failed_deliveries + 1 }) := by
  constructor
  · refine ⟨{ bump_delivered db rid with orders := ((bump_delivered db rid).orders.map
      (fun x => if x.id == oid then { o with status := OrderStatus.delivered, delivery_proof := pf } else x)) }, ?_, ?_⟩
    · simp [order_update_status, ho, hr]
    · show (db.riders.map fun x =>
          if x.id == rid then
            { x with total_deliveries := x.total_deliveries + 1,
                     successful_deliveries := x.successful_deliveries + 1 }
          else x).find? (fun x => x.id == rid) = _
      exact find_map_update db.riders rid r
        (fun x => { x with total_deliveries := x.total_deliveries + 1,
                           successful_deliveries := x.successful_deliveries + 1 })
        (fun x => rfl) hrr
  · refine ⟨{ bump_failed db rid with orders := ((bump_failed db rid).orders.map
      (fun x => if x.id == oid then { o with status := OrderStatus.failed, failure_reason := fr } else x)) }, ?_, ?_⟩
    · simp [order_update_status, ho, hr]
    · show (db.riders.map fun x =>
          if x.id == rid then
            { x with total_deliveries := x.total_deliveries + 1,
                     failed_deliveries := x.failed_deliveries + 1 }
          else x).find? (fun x => x.id == rid) = _
      exact find_map_update db.riders rid r
        (fun x => { x with total_deliveries := x.total_deliveries + 1,
                           failed_deliveries := x.failed_deliveries + 1 })
        (fun x => rfl) hrr

/-- Witness for `delivery_outcome_updates_counters` at a concrete state:
order 40 is assigned to rider 1, whose counters started at 10/10/0. -/
theorem delivery_outcome_updates_counters_witness :
    (∃ db1, order_update_status exDb9 40 OrderStatus.delivered "photo" "" = some db1 ∧
      db1.riders.find? (fun x => x.id == 1) =
        some { exRiderTop with total_deliveries := exRiderTop.total_deliveries + 1,
                               successful_deliveries := exRiderTop.successful_deliveries + 1 }) ∧
    (∃ db2, order_update_status exDb9 40 OrderStatus.failed "photo" "" = some db2 ∧
      db2.riders.find? (fun x => x.id == 1) =
        some { exRiderTop with total_deliveries := exRiderTop.total_deliveries + 1,
                               failed_deliveries := exRiderTop.failed_deliveries + 1 }) :=
  delivery_outcome_updates_counters exDb9 40 1 exOrderAssigned exRiderTop "photo" ""
    rfl rfl rfl

/-- **C10**: the manual single-order assignment path never writes the rider
row — after a successful `manual_assign_order` the rider table is exactly as
before (an AVAILABLE rider stays AVAILABLE, unlike the automatic path that
flips the selected rider to ON_DELIVERY) — only the target order is mutated
(assigned rider set, status ASSIGNED), every other order row is untouched,
and one fresh single-order route with `sequence = 1` is appended. -/
theorem manual_assign_never_touches_rider (db : DB) (oid rid : Nat) (o : Order)
    (r : Rider)
    (ho : db.orders.find? (fun x => x.id == oid) = some o)
    (hrr : db.riders.find? (fun x => x.id == rid) = some r) :
    ∃ db1, manual_assign_order db oid rid = some db1 ∧
      db1.riders = db.riders ∧
      db1.routes = db.routes ++
        [{ id := db.nextRouteId, rider := rid, route_date := o.delivery_date,
           landmark := o.landmark, sequence := 1,
           estimated_arrival := o.delivery_time_start, completed := false,
           orders := [o.id] }] ∧
      db1.orders = db.orders.map (fun x =>
        if x.id == oid then
          { x with assigned_rider := some rid, status := OrderStatus.assigned }
        else x) ∧
      ∀ x ∈ db.orders, x.id ≠ oid → x ∈ db1.orders := by
  refine ⟨{ db with
      orders := (db.orders.map (fun x =>
        if x.id == oid then
          { x with assigned_rider := some rid, status := OrderStatus.assigned }
        else x)),
      routes := (db.routes ++
        [{ id := db.nextRouteId, rider := rid, route_date := o.delivery_date,
           landmark := o.landmark, sequence := 1,
           estimated_arrival := o.delivery_time_start, completed := false,
           orders := [o.id] }]),
      nextRouteId := db.nextRouteId + 1 }, ?_, rfl, rfl, rfl, ?_⟩
  · simp [manual_assign_order, ho, hrr]
  · intro x hx hne
    exact List.mem_map.mpr ⟨x, hx, by simp [hne]⟩

/-- Witness for `manual_assign_never_touches_rider`: manually assigning
order 21 to rider 1 in a state where rider 1 is AVAILABLE. -/
theorem manual_assign_never_touches_rider_witness :
    ∃ db1, manual_assign_order exDbA 21 1 = some db1 ∧
      db1.riders = exDbA.riders ∧
      db1.routes = exDbA.routes ++
        [{ id := exDbA.nextRouteId, rider := 1, route_date := exOrderA.delivery_date,
           landmark := exOrderA.landmark, sequence := 1,
           estimated_arrival := exOrderA.delivery_time_start, completed := false,
           orders := [exOrderA.id] }] ∧
      db1.orders = exDbA.orders.map (fun x =>
        if x.id == 21 then
          { x with assigned_rider := some 1, status := OrderStatus.assigned }
        else x) ∧
      ∀ x ∈ exDbA.orders, x.id ≠ 21 → x ∈ db1.orders :=
  manual_assign_never_touches_rider exDbA 21 1 exOrderA exRiderTop rfl rfl

end RouteSasa
